/- Formal model of the NUCLEUS voice gateway session subsystem.
   The definitions are a shallow embedding of the Python sources under
   backend/services/voice-gateway: models/events.py, models/session.py,
   services/session_manager.py, services/nucleus_integration.py,
   handlers/tools.py, handlers/websocket.py and main.py.
   External effects (WebSocket sends, HTTP calls, the event bus) are modelled
   as traces appended to the state, and their outcomes as explicit parameters;
   uuid and wall-clock values are threaded in as Nat parameters. -/
import Mathlib

namespace VG

/-- Session states, from the SessionState enum in models/events.py. -/
inductive SessionState where
  | initializing
  | ready
  | listening
  | thinking
  | speaking
  | toolExecuting
  | ended
  | error
  deriving DecidableEq, Repr

/-- Message roles, from the MessageRole enum in models/events.py. -/
inductive MessageRole where
  | user
  | assistant
  | system
  | tool
  deriving DecidableEq, Repr

/-- One conversation message, from ConversationMessage in models/events.py.
    The generated metadata fields (uuid, timestamp, audio duration, tool call
    records) are not observable by any handler and are omitted. -/
structure ConversationMessage where
  role : MessageRole
  content : String
  deriving DecidableEq, Repr

/-- Result of a tool execution, standing for the result dict of
    NucleusIntegration.execute_tool in services/nucleus_integration.py:
    either a downstream JSON payload or a dict with a single error key. -/
inductive ToolResult where
  | okPayload (payload : String)
  | errPayload (message : String)
  deriving DecidableEq, Repr

/-- Events the gateway sends to the client WebSocket, from the Server*Event
    models in models/events.py. -/
inductive ServerEvent where
  | statusEvt (state : SessionState) (message : Option String)
  | transcriptEvt (role : MessageRole) (content : String) (isFinal : Bool)
  | audioEvt (data : String)
  | toolCallEvt (name : String) (status : String) (result : Option String)
  | errorEvt (code : String) (message : String)
  deriving DecidableEq, Repr

/-- Messages the gateway sends on the upstream xAI WebSocket, from the
    payloads built in models/session.py and services/xai_bridge.py. -/
inductive XaiMsg where
  | inputAudioAppend (audioData : String)
  | inputAudioCommit
  | conversationItemText (text : String)
  | functionCallOutput (callId : String) (output : ToolResult)
  | responseCreate
  | responseCancel
  | sessionUpdateMsg
  deriving DecidableEq, Repr

/-- An inbound upstream event as seen by VoiceSession.handle_xai_event: the
    handler reads the type string and the payload fields with event.get,
    defaulting each missing field to the empty string. -/
structure XaiEvent where
  etype : String
  delta : String
  transcript : String
  callId : String
  name : String
  arguments : String
  errorCode : String
  errorMessage : String
  deriving DecidableEq, Repr

/-- Helper building an upstream event with every payload field empty. -/
def mkXaiEvent (t : String) : XaiEvent :=
  ⟨t, "", "", "", "", "", "", ""⟩

/-- Helper building a response.audio.delta event carrying one audio chunk. -/
def audioDeltaEvent (d : String) : XaiEvent :=
  { mkXaiEvent ("response.audio.delta") with delta := d }

/-- The per-conversation session state, from the VoiceSession class in
    models/session.py.  The two WebSocket handles become the xaiConnected
    flag plus the two outbound traces; current_user_transcript is kept even
    though the source never updates it after initialization. -/
structure VoiceSession where
  sessionId : Nat
  entityId : Nat
  state : SessionState
  isActive : Bool
  createdAt : Nat
  lastActivity : Nat
  messages : List ConversationMessage
  currentUserTranscript : String
  currentAssistantTranscript : String
  toolCallsCount : Nat
  xaiConnected : Bool
  sentToClient : List ServerEvent
  sentToXai : List XaiMsg
  deriving DecidableEq, Repr

/-- VoiceSession.__init__ from models/session.py. -/
def VoiceSession.new (entityId sid now : Nat) : VoiceSession :=
  { sessionId := sid
    entityId := entityId
    state := SessionState.initializing
    isActive := false
    createdAt := now
    lastActivity := now
    messages := []
    currentUserTranscript := ""
    currentAssistantTranscript := ""
    toolCallsCount := 0
    xaiConnected := false
    sentToClient := []
    sentToXai := [] }

/-- VoiceSession.send_to_client: the send is attempted unconditionally and
    any transport exception is caught and logged, so the model records the
    attempted send and never fails. -/
def send_to_client (s : VoiceSession) (ev : ServerEvent) : VoiceSession :=
  { s with sentToClient := s.sentToClient ++ [ev] }

/-- VoiceSession.send_to_xai: when the upstream handle is None the source
    logs an error and returns without sending; exceptions of the send are
    caught and logged. -/
def send_to_xai (s : VoiceSession) (msg : XaiMsg) : VoiceSession :=
  if s.xaiConnected then { s with sentToXai := s.sentToXai ++ [msg] } else s

/-- VoiceSession.set_state: assigns the state, refreshes last_activity and
    notifies the client with a status event. -/
def set_state (s : VoiceSession) (newState : SessionState) (message : Option String)
    (now : Nat) : VoiceSession :=
  send_to_client { s with state := newState, lastActivity := now }
    (ServerEvent.statusEvt newState message)

/-- VoiceSession.handle_client_audio from models/session.py. -/
def handle_client_audio_chunk (s : VoiceSession) (now : Nat) (audioData : String) :
    VoiceSession :=
  let s1 : VoiceSession := { s with lastActivity := now }
  let s2 : VoiceSession :=
    if s1.state ≠ SessionState.ready ∧ s1.state ≠ SessionState.listening then
      set_state s1 SessionState.listening none now
    else s1
  send_to_xai s2 (XaiMsg.inputAudioAppend audioData)

/-- VoiceSession.handle_client_text from models/session.py. -/
def handle_client_text (s : VoiceSession) (now : Nat) (text : String) : VoiceSession :=
  let s1 : VoiceSession :=
    { s with lastActivity := now
             messages := s.messages ++ [⟨MessageRole.user, text⟩] }
  let s2 := send_to_xai s1 (XaiMsg.conversationItemText text)
  send_to_xai s2 XaiMsg.responseCreate

/-- VoiceSession.handle_xai_event from models/session.py, a direct
    transcription of the if and elif chain on the event type string.
    The handler has no terminal-state guard in the source. -/
def handle_xai_event (s : VoiceSession) (now : Nat) (e : XaiEvent) : VoiceSession :=
  if e.etype == "session.created" then
    set_state s SessionState.ready (some ("Session ready")) now
  else if e.etype == "session.updated" then
    s
  else if e.etype == "input_audio_buffer.speech_started" then
    set_state s SessionState.listening none now
  else if e.etype == "input_audio_buffer.speech_stopped" then
    set_state s SessionState.thinking none now
  else if e.etype == "response.audio_transcript.delta" then
    let s1 : VoiceSession :=
      { s with currentAssistantTranscript := s.currentAssistantTranscript ++ e.delta }
    send_to_client s1 (ServerEvent.transcriptEvt MessageRole.assistant e.delta false)
  else if e.etype == "response.audio.delta" then
    if e.delta ≠ "" then
      let s1 := set_state s SessionState.speaking none now
      send_to_client s1 (ServerEvent.audioEvt e.delta)
    else s
  else if e.etype == "response.audio.done" then
    let s1 : VoiceSession :=
      if s.currentAssistantTranscript ≠ "" then
        let sa : VoiceSession :=
          { s with messages :=
              s.messages ++ [⟨MessageRole.assistant, s.currentAssistantTranscript⟩] }
        let sb := send_to_client sa
          (ServerEvent.transcriptEvt MessageRole.assistant s.currentAssistantTranscript true)
        { sb with currentAssistantTranscript := "" }
      else s
    set_state s1 SessionState.ready none now
  else if e.etype == "conversation.item.input_audio_transcription.completed" then
    if e.transcript ≠ "" then
      let s1 : VoiceSession :=
        { s with messages := s.messages ++ [⟨MessageRole.user, e.transcript⟩] }
      send_to_client s1 (ServerEvent.transcriptEvt MessageRole.user e.transcript true)
    else s
  else if e.etype == "response.function_call_arguments.done" then
    let s1 := send_to_client s (ServerEvent.toolCallEvt e.name ("executing") none)
    { s1 with toolCallsCount := s1.toolCallsCount + 1 }
  else if e.etype == "error" then
    send_to_client s (ServerEvent.errorEvt e.errorCode e.errorMessage)
  else
    s

/-- Folding a list of upstream events through handle_xai_event, as done by
    the upstream listener task in services/xai_bridge.py listen_for_events. -/
def runXaiEvents (s : VoiceSession) (now : Nat) (evts : List XaiEvent) : VoiceSession :=
  evts.foldl (fun acc e => handle_xai_event acc now e) s

/-- The two built-in xAI tools from handlers/tools.py, executed entirely by
    the upstream provider. -/
def builtinTools : List String := ["web_search", "x_search"]

/-- The tool names routed by NucleusIntegration.execute_tool to the fixed
    downstream HTTP collaborators. -/
def knownNucleusTools : List String :=
  ["get_calendar_events", "create_calendar_event", "get_recent_emails", "send_email",
   "get_memory_context", "create_task", "get_contacts", "get_user_preferences"]

/-- One downstream HTTP call made by a tool helper of
    services/nucleus_integration.py.  The helper raises on HTTP failure and
    the except clause of execute_tool converts the exception into a dict with
    an error key; httpOutcome gives, per tool name, the payload on success or
    the exception text on failure. -/
def execHttp (httpOutcome : String → Except String String) (toolName : String) :
    ToolResult :=
  match httpOutcome toolName with
  | Except.ok payload => ToolResult.okPayload payload
  | Except.error e => ToolResult.errPayload e

/-- NucleusIntegration.execute_tool from services/nucleus_integration.py: the
    elif chain over the known tool names with the unknown-tool fallthrough,
    wrapped in the try and except that turns any helper failure into a
    structured error result.  The entity id only feeds the request URLs and
    is not modelled. -/
def execute_tool (httpOutcome : String → Except String String) (toolName : String) :
    ToolResult :=
  if toolName == "get_calendar_events" then execHttp httpOutcome toolName
  else if toolName == "create_calendar_event" then execHttp httpOutcome toolName
  else if toolName == "get_recent_emails" then execHttp httpOutcome toolName
  else if toolName == "send_email" then execHttp httpOutcome toolName
  else if toolName == "get_memory_context" then execHttp httpOutcome toolName
  else if toolName == "create_task" then execHttp httpOutcome toolName
  else if toolName == "get_contacts" then execHttp httpOutcome toolName
  else if toolName == "get_user_preferences" then execHttp httpOutcome toolName
  else ToolResult.errPayload (("Unknown tool: ") ++ toolName)

/-- Environment of one tool dispatch: whether json.loads succeeds on the
    argument string, and the outcome of the downstream HTTP call per tool. -/
structure ToolEnv where
  parseOk : Bool
  httpOutcome : String → Except String String

/-- In handlers/tools.py json.loads is only attempted when the argument
    string is non-empty, so a decode error occurs exactly then. -/
def parseFails (env : ToolEnv) (arguments : String) : Bool :=
  arguments != "" && !env.parseOk

/-- The private tool error path of handlers/tools.py: sends the structured
    error result upstream through conversation.item.create with
    function_call_output (followed by the response.create issued inside
    XAIBridge.send_tool_result) when the upstream handle exists, then
    notifies the client with a failed tool_call event.  It does not touch
    the tool call counter. -/
def handle_tool_error (s : VoiceSession) (callId toolName errMessage : String) :
    VoiceSession :=
  let s1 : VoiceSession :=
    if s.xaiConnected then
      { s with sentToXai := s.sentToXai ++
          [XaiMsg.functionCallOutput callId (ToolResult.errPayload errMessage),
           XaiMsg.responseCreate] }
    else s
  send_to_client s1
    (ServerEvent.toolCallEvt toolName ("failed") (some (("Error: ") ++ errMessage)))

/-- The success-path summary of a tool result shown to the client, from
    _summarize_result in handlers/tools.py.  On an error result the source
    returns the error text; on a success payload the source inspects the
    result keys (events, emails, messages, contacts, memories, created, id,
    sent) to phrase a summary, which no claim depends on, so the payload
    summary is collapsed to its final default branch. -/
def summarize_result : ToolResult → String
  | ToolResult.errPayload m => ("Error: ") ++ m
  | ToolResult.okPayload _ => "Completed"

/-- handle_tool_call from handlers/tools.py: notify the client that the tool
    is executing, parse the arguments, run the built-in or NUCLEUS tool,
    send the result upstream for non-built-in tools when the upstream handle
    exists, notify the client of completion and increment the counter; a
    JSON decode error is diverted to handle_tool_error.  The sends are total
    in this model, so the generic except clause has no further trigger. -/
def handle_tool_call (env : ToolEnv) (s : VoiceSession)
    (callId toolName arguments : String) : VoiceSession :=
  let s1 := send_to_client s (ServerEvent.toolCallEvt toolName ("executing") none)
  if parseFails env arguments then
    handle_tool_error s1 callId toolName ("Invalid arguments")
  else
    let isBuiltin : Bool := toolName == "web_search" || toolName == "x_search"
    let result : ToolResult :=
      if isBuiltin then ToolResult.okPayload ("handled_by_xai")
      else execute_tool env.httpOutcome toolName
    let s2 : VoiceSession :=
      if s1.xaiConnected && !isBuiltin then
        { s1 with sentToXai := s1.sentToXai ++
            [XaiMsg.functionCallOutput callId result, XaiMsg.responseCreate] }
      else s1
    let s3 := send_to_client s2
      (ServerEvent.toolCallEvt toolName ("completed") (some (summarize_result result)))
    { s3 with toolCallsCount := s3.toolCallsCount + 1 }

/-- handle_control_action from handlers/websocket.py: on interrupt it sends
    response.cancel upstream when the upstream handle exists and then moves
    the session to ready; end_session clears is_active; mute, unmute and
    unknown actions only log. -/
def handle_control_action (s : VoiceSession) (action : String) (now : Nat) :
    VoiceSession :=
  if action == "interrupt" then
    let s1 : VoiceSession :=
      if s.xaiConnected then { s with sentToXai := s.sentToXai ++ [XaiMsg.responseCancel] }
      else s
    set_state s1 SessionState.ready none now
  else if action == "end_session" then
    { s with isActive := false }
  else
    s

/-- The control branch of the message loop in main.py handle_voice_connection,
    the handler actually bound to the websocket endpoint: on interrupt it
    sends response.cancel upstream when the upstream handle exists and does
    not change the session state; end_session clears is_active; any other
    action is ignored. -/
def mainHandleControl (s : VoiceSession) (action : String) : VoiceSession :=
  if action == "interrupt" then
    if s.xaiConnected then { s with sentToXai := s.sentToXai ++ [XaiMsg.responseCancel] }
    else s
  else if action == "end_session" then
    { s with isActive := false }
  else
    s

/-- Lookup in an association list, the model of Python dict access. -/
def lookupA {α : Type} (k : Nat) : List (Nat × α) → Option α
  | [] => none
  | p :: t => if p.1 = k then some p.2 else lookupA k t

/-- Key membership in an association list, the model of the Python in test. -/
def keyMem {α : Type} (k : Nat) (l : List (Nat × α)) : Bool :=
  l.any (fun p => p.1 == k)

/-- Dict deletion: removes the binding of the key. -/
def assocErase {α : Type} (k : Nat) (l : List (Nat × α)) : List (Nat × α) :=
  l.filter (fun p => p.1 != k)

/-- Dict assignment: replaces the first binding of the key in place when the
    key is present, appends the binding otherwise.  On key-unique lists this
    is exactly the Python dict assignment. -/
def assocSet {α : Type} (k : Nat) (v : α) : List (Nat × α) → List (Nat × α)
  | [] => [(k, v)]
  | p :: t => if p.1 = k then (k, v) :: t else p :: assocSet k v t

/-- An event published on the NUCLEUS bus by the session manager, from
    VoiceSessionEvent in models/events.py; the data payload and timestamp
    are not modelled. -/
structure VEvent where
  etype : String
  entityId : Nat
  sessionId : Nat
  deriving DecidableEq, Repr

/-- The voice.session.ended lifecycle event. -/
def mkEnded (entityId sid : Nat) : VEvent :=
  ⟨("voice.session.ended"), entityId, sid⟩

/-- The voice.session.started lifecycle event. -/
def mkStarted (entityId sid : Nat) : VEvent :=
  ⟨("voice.session.started"), entityId, sid⟩

/-- The SessionManager state from services/session_manager.py: the two
    registry dicts, the configured maximum, and traces of the external
    effects (published lifecycle events, conversation logs flushed to the
    memory service, attempted upstream connections). -/
structure ManagerState where
  sessions : List (Nat × VoiceSession)
  entitySessions : List (Nat × Nat)
  maxConcurrent : Nat
  published : List VEvent
  logged : List (Nat × Nat)
  xaiConnectAttempts : Nat
  deriving DecidableEq, Repr

/-- SessionManager.close_session from services/session_manager.py.  An
    unknown id logs a warning and returns.  Otherwise the conversation log is
    flushed when non-empty and the ended event is published (both best
    effort: publish and log swallow HTTP errors themselves and the
    surrounding try catches everything else); the finally block closes the
    session object, pops it from the session dict, and deletes the entity
    mapping only when it still points at the session being closed. -/
def closeSession (m : ManagerState) (sid : Nat) : ManagerState :=
  match lookupA sid m.sessions with
  | none => m
  | some session =>
    let logged : List (Nat × Nat) :=
      if session.messages ≠ [] then m.logged ++ [(session.entityId, sid)] else m.logged
    let published := m.published ++ [mkEnded session.entityId sid]
    let entitySessions : List (Nat × Nat) :=
      match lookupA session.entityId m.entitySessions with
      | some sid2 =>
        if sid2 = sid then assocErase session.entityId m.entitySessions
        else m.entitySessions
      | none => m.entitySessions
    { m with sessions := assocErase sid m.sessions
             entitySessions := entitySessions
             published := published
             logged := logged }

/-- Failure modes of SessionManager.create_session: the capacity check
    raises before anything else is attempted, and a failure of the upstream
    connect or configure step is re-raised after closing the partly built
    session object. -/
inductive CreateError where
  | maxSessions
  | connectFailed
  deriving DecidableEq, Repr

/-- The part of SessionManager.create_session after the close of any
    existing session of the entity: the capacity check runs against the
    registry size; the entity context load is best effort and leaves no
    manager state; the upstream connect and configure step either succeeds
    (connectOk) or raises, in which case the unregistered session object is
    closed and the error re-raised.  On success the session is marked
    active, registered in both dicts, and the started event is published.
    newSid stands for the uuid4 drawn in the VoiceSession constructor and
    now for the wall clock. -/
def createSessionAfterClose (m1 : ManagerState) (entityId newSid now : Nat)
    (connectOk : Bool) : Except CreateError Nat × ManagerState :=
  if m1.sessions.length ≥ m1.maxConcurrent then
    (Except.error CreateError.maxSessions, m1)
  else
    let session := VoiceSession.new entityId newSid now
    if connectOk then
      let session : VoiceSession := { session with xaiConnected := true, isActive := true }
      let m2 : ManagerState :=
        { m1 with sessions := assocSet newSid session m1.sessions
                  entitySessions := assocSet entityId newSid m1.entitySessions
                  published := m1.published ++ [mkStarted entityId newSid]
                  xaiConnectAttempts := m1.xaiConnectAttempts + 1 }
      (Except.ok newSid, m2)
    else
      (Except.error CreateError.connectFailed,
       { m1 with xaiConnectAttempts := m1.xaiConnectAttempts + 1 })

/-- SessionManager.create_session, full entry point: first close the
    existing session of the entity when the mapping has one, then run the
    capacity check and the connect-and-register step above. -/
def createSession (m : ManagerState) (entityId newSid now : Nat) (connectOk : Bool) :
    Except CreateError Nat × ManagerState :=
  createSessionAfterClose
    (match lookupA entityId m.entitySessions with
     | some sid => closeSession m sid
     | none => m)
    entityId newSid now connectOk

/-- Registry coupling invariant of the SessionManager: every registered
    session is pointed at by the mapping of its entity, and every entity
    mapping points at a registered session of that entity. -/
structure Inv (m : ManagerState) : Prop where
  w1 : ∀ sid s, lookupA sid m.sessions = some s →
        lookupA s.entityId m.entitySessions = some sid
  w2 : ∀ e sid, lookupA e m.entitySessions = some sid →
        ∃ s, lookupA sid m.sessions = some s ∧ s.entityId = e

/-- At most one registered session per entity, phrased on the session dict. -/
def AtMostOne (m : ManagerState) : Prop :=
  ∀ sid1 sid2 s1 s2, lookupA sid1 m.sessions = some s1 →
    lookupA sid2 m.sessions = some s2 → s1.entityId = s2.entityId → sid1 = sid2

/-- The audio payloads inside a client-bound event trace, in send order. -/
def clientAudioTrace (l : List ServerEvent) : List String :=
  l.filterMap (fun ev =>
    match ev with
    | ServerEvent.audioEvt d => some d
    | _ => none)

/-- The payloads of the upstream response.audio.delta events that the
    handler forwards: those whose delta field is non-empty. -/
def upstreamAudioPayloads (evts : List XaiEvent) : List String :=
  evts.filterMap (fun e =>
    if e.etype == "response.audio.delta" && e.delta != "" then some e.delta else none)

/-- The name and status of every tool_call notification in a client-bound
    event trace, in send order. -/
def toolCallStatuses (l : List ServerEvent) : List (String × String) :=
  l.filterMap (fun ev =>
    match ev with
    | ServerEvent.toolCallEvt n st _ => some (n, st)
    | _ => none)

/-- The event type strings recognized by the dispatch chain of
    VoiceSession.handle_xai_event; every other inbound type falls through to
    the implicit final branch and is ignored. -/
def recognizedXaiTypes : List String :=
  ["session.created", "session.updated", "input_audio_buffer.speech_started",
   "input_audio_buffer.speech_stopped", "response.audio_transcript.delta",
   "response.audio.delta", "response.audio.done",
   "conversation.item.input_audio_transcription.completed",
   "response.function_call_arguments.done", "error"]

/-- Number of voice.session.ended events for a given session id in a
    published trace. -/
def countEnded (sid : Nat) (l : List VEvent) : Nat :=
  (l.filter (fun v => v.etype == "voice.session.ended" && v.sessionId == sid)).length

/-- A concrete active session of entity 10 with id 1, used as a witness. -/
def demoReadySession : VoiceSession :=
  { VoiceSession.new 10 1 0 with
      state := SessionState.ready, isActive := true, xaiConnected := true }

/-- The witness session after it has reached the terminal ended state. -/
def demoEndedSession : VoiceSession :=
  { demoReadySession with state := SessionState.ended }

/-- The witness session while listening to client audio. -/
def demoListeningSession : VoiceSession :=
  { demoReadySession with state := SessionState.listening }

/-- A concrete manager registry holding the witness session. -/
def demoManager : ManagerState :=
  { sessions := [(1, demoReadySession)]
    entitySessions := [(10, 1)]
    maxConcurrent := 5
    published := []
    logged := []
    xaiConnectAttempts := 0 }

/-- The witness registry at its capacity limit. -/
def demoCapManager : ManagerState :=
  { demoManager with maxConcurrent := 1 }

/-- A registry where the stale session 1 is still stored while the mapping
    of its entity already points at the newer session 2. -/
def demoStaleManager : ManagerState :=
  { demoManager with entitySessions := [(10, 2)] }

/-- A tool environment whose argument parse fails. -/
def demoToolEnvParseFail : ToolEnv :=
  ⟨false, fun _ => Except.ok ("r")⟩

/-- A tool environment where parsing and the downstream call succeed. -/
def demoToolEnvOk : ToolEnv :=
  ⟨true, fun _ => Except.ok ("r")⟩

/-- A tool environment whose downstream HTTP call fails. -/
def demoToolEnvHttpFail : ToolEnv :=
  ⟨true, fun _ => Except.error ("boom")⟩

theorem lookupA_assocErase {α : Type} (k k' : Nat) (l : List (Nat × α)) :
    lookupA k' (assocErase k l) = if k' = k then none else lookupA k' l := by
  induction l with
  | nil => simp [assocErase, lookupA]
  | cons p t ih =>
    by_cases hp : p.1 = k
    · have hf : (p.1 != k) = false := by simp [hp]
      simp only [assocErase, List.filter] at ih ⊢
      rw [hf]
      simp only [ih, lookupA]
      by_cases hk : k' = k
      · simp [hk]
      · have : p.1 ≠ k' := by
          intro h
          exact hk (by rw [← h, hp])
        simp [hk, this]
    · have hf : (p.1 != k) = true := by simp [hp]
      simp only [assocErase, List.filter] at ih ⊢
      rw [hf]
      simp only [lookupA, ih]
      by_cases hpk : p.1 = k'
      · have hk : ¬ k' = k := by
          intro h
          exact hp (by rw [hpk, h])
        simp [hpk, hk]
      · simp [hpk]

theorem lookupA_assocSet {α : Type} (k k' : Nat) (v : α) (l : List (Nat × α)) :
    lookupA k' (assocSet k v l) = if k' = k then some v else lookupA k' l := by
  induction l with
  | nil =>
    simp only [assocSet, lookupA]
    by_cases hk : k' = k
    · simp [hk]
    · have : ¬ k = k' := fun h => hk h.symm
      simp [hk, this]
  | cons p t ih =>
    by_cases hp : p.1 = k
    · simp only [assocSet, hp, if_pos rfl, lookupA]
      by_cases hk : k' = k
      · simp [hk]
      · have h1 : ¬ k = k' := fun h => hk h.symm
        have h2 : p.1 ≠ k' := by
          intro h
          exact hk (by rw [← h, hp])
        simp [hk, h1, h2]
    · simp only [assocSet, hp, if_neg hp, lookupA, ih]
      by_cases hpk : p.1 = k'
      · have hk : ¬ k' = k := by
          intro h
          exact hp (by rw [hpk, h])
        simp [hpk, hk]
      · simp [hpk]

theorem closeSession_not_found (m : ManagerState) (sid : Nat)
    (h : lookupA sid m.sessions = none) : closeSession m sid = m := by
  unfold closeSession
  rw [h]

theorem closeSession_found (m : ManagerState) (sid : Nat) (s : VoiceSession)
    (h : lookupA sid m.sessions = some s)
    (hw : lookupA s.entityId m.entitySessions = some sid) :
    closeSession m sid =
      { m with sessions := assocErase sid m.sessions
               entitySessions := assocErase s.entityId m.entitySessions
               published := m.published ++ [mkEnded s.entityId sid]
               logged :=
                 if s.messages ≠ [] then m.logged ++ [(s.entityId, sid)]
                 else m.logged } := by
  unfold closeSession
  rw [h]
  simp [hw]

theorem Inv_closeSession (m : ManagerState) (sid : Nat) (hI : Inv m) :
    Inv (closeSession m sid) := by
  cases h : lookupA sid m.sessions with
  | none => rw [closeSession_not_found m sid h]; exact hI
  | some s =>
    have hw := hI.w1 sid s h
    rw [closeSession_found m sid s h hw]
    constructor
    · intro sid' s' h'
      rw [lookupA_assocErase] at h'
      by_cases hss : sid' = sid
      · simp [hss] at h'
      · simp only [hss, if_neg hss] at h'
        have hw' := hI.w1 sid' s' h'
        rw [lookupA_assocErase]
        by_cases he : s'.entityId = s.entityId
        · exfalso
          rw [he, hw] at hw'
          exact hss (Option.some.inj hw').symm
        · simp [he, hw']
    · intro e sid'' h''
      rw [lookupA_assocErase] at h''
      by_cases he : e = s.entityId
      · simp [he] at h''
      · simp only [he, if_neg he] at h''
        obtain ⟨s'', hs'', he''⟩ := hI.w2 e sid'' h''
        have hne : sid'' ≠ sid := by
          intro hcontra
          rw [hcontra, h] at hs''
          have hseq : s = s'' := Option.some.inj hs''
          exact he (by rw [← he'', ← hseq])
        refine ⟨s'', ?_, he''⟩
        rw [lookupA_assocErase]
        simp [hne, hs'']

theorem atMostOne_of_inv (m : ManagerState) (hI : Inv m) : AtMostOne m := by
  intro sid1 sid2 s1 s2 h1 h2 he
  have hw1 := hI.w1 sid1 s1 h1
  have hw2 := hI.w1 sid2 s2 h2
  rw [he, hw2] at hw1
  exact (Option.some.inj hw1).symm

/-- The session object registered by a successful create_session. -/
def newActiveSession (entityId newSid now : Nat) : VoiceSession :=
  { VoiceSession.new entityId newSid now with xaiConnected := true, isActive := true }

theorem createSession_of_lookup_none {m : ManagerState} {e : Nat}
    (newSid now : Nat) (ok : Bool) (hE : lookupA e m.entitySessions = none) :
    createSession m e newSid now ok = createSessionAfterClose m e newSid now ok := by
  unfold createSession
  rw [hE]

theorem createSession_of_lookup_some {m : ManagerState} {e oldSid : Nat}
    (newSid now : Nat) (ok : Bool) (hE : lookupA e m.entitySessions = some oldSid) :
    createSession m e newSid now ok =
      createSessionAfterClose (closeSession m oldSid) e newSid now ok := by
  unfold createSession
  rw [hE]

theorem createSessionAfterClose_cap {m1 : ManagerState} (e newSid now : Nat) (ok : Bool)
    (h : m1.sessions.length ≥ m1.maxConcurrent) :
    createSessionAfterClose m1 e newSid now ok =
      (Except.error CreateError.maxSessions, m1) := by
  unfold createSessionAfterClose
  rw [if_pos h]

theorem createSessionAfterClose_connectFailed {m1 : ManagerState} (e newSid now : Nat)
    (h : ¬ m1.sessions.length ≥ m1.maxConcurrent) :
    createSessionAfterClose m1 e newSid now false =
      (Except.error CreateError.connectFailed,
       { m1 with xaiConnectAttempts := m1.xaiConnectAttempts + 1 }) := by
  unfold createSessionAfterClose
  rw [if_neg h]
  rfl

theorem createSessionAfterClose_ok {m1 : ManagerState} (e newSid now : Nat)
    (h : ¬ m1.sessions.length ≥ m1.maxConcurrent) :
    createSessionAfterClose m1 e newSid now true =
      (Except.ok newSid,
       { m1 with
           sessions := assocSet newSid (newActiveSession e newSid now) m1.sessions
           entitySessions := assocSet e newSid m1.entitySessions
           published := m1.published ++ [mkStarted e newSid]
           xaiConnectAttempts := m1.xaiConnectAttempts + 1 }) := by
  unfold createSessionAfterClose
  rw [if_neg h]
  rfl

theorem Inv_createSessionAfterClose (m1 : ManagerState) (e newSid now : Nat) (ok : Bool)
    (hI : Inv m1) (hE : lookupA e m1.entitySessions = none)
    (hfresh : lookupA newSid m1.sessions = none) :
    Inv (createSessionAfterClose m1 e newSid now ok).2 := by
  by_cases hcap : m1.sessions.length ≥ m1.maxConcurrent
  · rw [createSessionAfterClose_cap e newSid now ok hcap]
    exact hI
  · cases ok with
    | false =>
      rw [createSessionAfterClose_connectFailed e newSid now hcap]
      exact ⟨hI.w1, hI.w2⟩
    | true =>
      rw [createSessionAfterClose_ok e newSid now hcap]
      constructor
      · intro sid' s' h'
        dsimp only at h' ⊢
        rw [lookupA_assocSet] at h'
        by_cases hss : sid' = newSid
        · rw [if_pos hss] at h'
          have hs' : newActiveSession e newSid now = s' := Option.some.inj h'
          rw [← hs']
          show lookupA e (assocSet e newSid m1.entitySessions) = some sid'
          rw [lookupA_assocSet, if_pos rfl, hss]
        · rw [if_neg hss] at h'
          have hw' := hI.w1 sid' s' h'
          have hne : s'.entityId ≠ e := by
            intro hcontra
            rw [hcontra, hE] at hw'
            cases hw'
          rw [lookupA_assocSet, if_neg hne]
          exact hw'
      · intro e' sid'' h''
        dsimp only at h'' ⊢
        rw [lookupA_assocSet] at h''
        by_cases he : e' = e
        · rw [if_pos he] at h''
          have hsid : newSid = sid'' := Option.some.inj h''
          refine ⟨newActiveSession e newSid now, ?_, ?_⟩
          · rw [← hsid, lookupA_assocSet, if_pos rfl]
          · rw [he]
            rfl
        · rw [if_neg he] at h''
          obtain ⟨s'', h1, h2⟩ := hI.w2 e' sid'' h''
          have hne : sid'' ≠ newSid := by
            intro hcontra
            rw [hcontra, hfresh] at h1
            cases h1
          refine ⟨s'', ?_, h2⟩
          rw [lookupA_assocSet, if_neg hne]
          exact h1

theorem Inv_createSession (m : ManagerState) (e newSid now : Nat) (ok : Bool)
    (hI : Inv m) (hfresh : lookupA newSid m.sessions = none) :
    Inv (createSession m e newSid now ok).2 := by
  cases hE : lookupA e m.entitySessions with
  | none =>
    rw [createSession_of_lookup_none newSid now ok hE]
    exact Inv_createSessionAfterClose m e newSid now ok hI hE hfresh
  | some oldSid =>
    obtain ⟨sOld, hOld, hOldE⟩ := hI.w2 e oldSid hE
    have hw : lookupA sOld.entityId m.entitySessions = some oldSid := by
      rw [hOldE]
      exact hE
    have hI1 : Inv (closeSession m oldSid) := Inv_closeSession m oldSid hI
    have hCS := closeSession_found m oldSid sOld hOld hw
    have hE1 : lookupA e (closeSession m oldSid).entitySessions = none := by
      rw [hCS]
      dsimp only
      rw [hOldE, lookupA_assocErase, if_pos rfl]
    have hfresh1 : lookupA newSid (closeSession m oldSid).sessions = none := by
      rw [hCS]
      dsimp only
      rw [lookupA_assocErase]
      by_cases hno : newSid = oldSid
      · rw [if_pos hno]
      · rw [if_neg hno]
        exact hfresh
    rw [createSession_of_lookup_some newSid now ok hE]
    exact Inv_createSessionAfterClose (closeSession m oldSid) e newSid now ok hI1 hE1 hfresh1

theorem clientAudioTrace_append (l1 l2 : List ServerEvent) :
    clientAudioTrace (l1 ++ l2) = clientAudioTrace l1 ++ clientAudioTrace l2 := by
  unfold clientAudioTrace
  exact List.filterMap_append l1 l2 _

theorem clientAudioTrace_handle_xai_event (s : VoiceSession) (now : Nat) (e : XaiEvent) :
    clientAudioTrace (handle_xai_event s now e).sentToClient
      = clientAudioTrace s.sentToClient ++ upstreamAudioPayloads [e] := by
  by_cases h1 : e.etype = "session.created"
  · simp [handle_xai_event, upstreamAudioPayloads, h1, clientAudioTrace, set_state,
      send_to_client, List.filterMap_append]
  by_cases h2 : e.etype = "session.updated"
  · simp [handle_xai_event, upstreamAudioPayloads, h2, clientAudioTrace, set_state,
      send_to_client, List.filterMap_append]
  by_cases h3 : e.etype = "input_audio_buffer.speech_started"
  · simp [handle_xai_event, upstreamAudioPayloads, h3, clientAudioTrace, set_state,
      send_to_client, List.filterMap_append]
  by_cases h4 : e.etype = "input_audio_buffer.speech_stopped"
  · simp [handle_xai_event, upstreamAudioPayloads, h4, clientAudioTrace, set_state,
      send_to_client, List.filterMap_append]
  by_cases h5 : e.etype = "response.audio_transcript.delta"
  · simp [handle_xai_event, upstreamAudioPayloads, h5, clientAudioTrace, set_state,
      send_to_client, List.filterMap_append]
  by_cases h6 : e.etype = "response.audio.delta"
  · by_cases hd : e.delta = ""
    · simp [handle_xai_event, upstreamAudioPayloads, h6, hd, clientAudioTrace, set_state,
        send_to_client, List.filterMap_append]
    · simp [handle_xai_event, upstreamAudioPayloads, h6, hd, clientAudioTrace, set_state,
        send_to_client, List.filterMap_append]
  by_cases h7 : e.etype = "response.audio.done"
  · by_cases hct : s.currentAssistantTranscript = ""
    · simp [handle_xai_event, upstreamAudioPayloads, h7, hct, clientAudioTrace, set_state,
        send_to_client, List.filterMap_append]
    · simp [handle_xai_event, upstreamAudioPayloads, h7, hct, clientAudioTrace, set_state,
        send_to_client, List.filterMap_append]
  by_cases h8 : e.etype = "conversation.item.input_audio_transcription.completed"
  · by_cases ht : e.transcript = ""
    · simp [handle_xai_event, upstreamAudioPayloads, h8, ht, clientAudioTrace, set_state,
        send_to_client, List.filterMap_append]
    · simp [handle_xai_event, upstreamAudioPayloads, h8, ht, clientAudioTrace, set_state,
        send_to_client, List.filterMap_append]
  by_cases h9 : e.etype = "response.function_call_arguments.done"
  · simp [handle_xai_event, upstreamAudioPayloads, h9, clientAudioTrace, set_state,
      send_to_client, List.filterMap_append]
  by_cases h10 : e.etype = "error"
  · simp [handle_xai_event, upstreamAudioPayloads, h10, clientAudioTrace, set_state,
      send_to_client, List.filterMap_append]
  · simp [handle_xai_event, upstreamAudioPayloads, h1, h2, h3, h4, h5, h6, h7, h8, h9, h10,
      clientAudioTrace, List.filterMap]

/-- Claim C9, amended: within one session, the audio payloads forwarded to
    the client are exactly the payloads of the non-empty upstream
    response.audio.delta events, in upstream arrival order; an audio-delta
    event whose payload is empty or missing is dropped. -/
theorem audio_delta_order_preserved (s : VoiceSession) (now : Nat) (evts : List XaiEvent) :
    clientAudioTrace (runXaiEvents s now evts).sentToClient
      = clientAudioTrace s.sentToClient ++ upstreamAudioPayloads evts := by
  induction evts generalizing s with
  | nil => simp [runXaiEvents, upstreamAudioPayloads]
  | cons e t ih =>
    have hstep := clientAudioTrace_handle_xai_event s now e
    show clientAudioTrace (runXaiEvents (handle_xai_event s now e) now t).sentToClient = _
    rw [ih (handle_xai_event s now e), hstep]
    simp only [upstreamAudioPayloads, List.filterMap_cons, List.filterMap]
    split <;> simp [List.append_assoc]

/-- Claim C9, counterexample to the claim as stated: of three audio-delta
    events received in order, the one with an empty payload is dropped, so
    only two audio events reach the client. -/
theorem audio_delta_empty_dropped_cex :
    clientAudioTrace (runXaiEvents demoReadySession 0
        [audioDeltaEvent ("A"), audioDeltaEvent (""), audioDeltaEvent ("C")]).sentToClient
      = ["A", "C"]
    ∧ (["A", "C"] : List String).length ≠ 3 := by
  exact ⟨rfl, by decide⟩

/-- Claim C3, counterexample to the claim as stated: a session.created event
    delivered to a session already in the terminal ended state is not
    dropped; it changes the state back to ready. -/
theorem terminal_event_changes_state_cex :
    demoEndedSession.state = SessionState.ended
    ∧ (handle_xai_event demoEndedSession 1 (mkXaiEvent ("session.created"))).state
        = SessionState.ready
    ∧ SessionState.ready ≠ SessionState.ended := by
  exact ⟨rfl, rfl, by decide⟩

/-- Claim C3, amended: handle_xai_event applies no terminal-state guard; an
    inbound event delivered after ended or error is handled exactly as in
    any other state and can change the state (session.created moves the
    session back to ready); only events with an unrecognized type are
    ignored, and no event is propagated as an error to the caller (the
    handler is total). -/
theorem terminal_state_no_guard (s : VoiceSession) (now : Nat)
    (hterm : s.state = SessionState.ended ∨ s.state = SessionState.error) :
    (handle_xai_event s now (mkXaiEvent ("session.created"))).state = SessionState.ready
    ∧ ∀ e : XaiEvent, e.etype ∉ recognizedXaiTypes → handle_xai_event s now e = s := by
  constructor
  · rfl
  · intro e he
    simp only [recognizedXaiTypes, List.mem_cons, List.not_mem_nil, or_false, not_or] at he
    obtain ⟨n1, n2, n3, n4, n5, n6, n7, n8, n9, n10⟩ := he
    simp [handle_xai_event, n1, n2, n3, n4, n5, n6, n7, n8, n9, n10]

theorem terminal_state_no_guard_witness :
    (handle_xai_event demoEndedSession 0 (mkXaiEvent ("session.created"))).state
        = SessionState.ready
    ∧ ∀ e : XaiEvent, e.etype ∉ recognizedXaiTypes →
        handle_xai_event demoEndedSession 0 e = demoEndedSession :=
  terminal_state_no_guard demoEndedSession 0 (Or.inl rfl)

/-- Claim C4, counterexample to the claim as stated: in the connection loop
    of main.py, the one bound to the websocket endpoint, an interrupt
    control message received in state listening leaves the state listening;
    it does not become ready. -/
theorem interrupt_main_loop_keeps_state_cex :
    demoListeningSession.state = SessionState.listening
    ∧ (mainHandleControl demoListeningSession ("interrupt")).state
        = SessionState.listening
    ∧ SessionState.listening ≠ SessionState.ready := by
  exact ⟨rfl, rfl, by decide⟩

/-- Claim C4, amended: for a listening session with a live upstream
    connection, an interrupt control message always sends response.cancel
    upstream; the wired loop of main.py leaves the session state unchanged,
    while handle_control_action of handlers/websocket.py additionally moves
    the session to ready. -/
theorem interrupt_cancel_behavior (s : VoiceSession) (now : Nat)
    (hstate : s.state = SessionState.listening) (hconn : s.xaiConnected = true) :
    (mainHandleControl s ("interrupt")).sentToXai = s.sentToXai ++ [XaiMsg.responseCancel]
    ∧ (mainHandleControl s ("interrupt")).state = s.state
    ∧ (handle_control_action s ("interrupt") now).state = SessionState.ready
    ∧ (handle_control_action s ("interrupt") now).sentToXai
        = s.sentToXai ++ [XaiMsg.responseCancel] := by
  refine ⟨?_, ?_, ?_, ?_⟩ <;>
    simp [mainHandleControl, handle_control_action, set_state, send_to_client, hconn]

theorem interrupt_cancel_behavior_witness :
    (mainHandleControl demoListeningSession ("interrupt")).sentToXai
        = demoListeningSession.sentToXai ++ [XaiMsg.responseCancel]
    ∧ (mainHandleControl demoListeningSession ("interrupt")).state
        = demoListeningSession.state
    ∧ (handle_control_action demoListeningSession ("interrupt") 0).state
        = SessionState.ready
    ∧ (handle_control_action demoListeningSession ("interrupt") 0).sentToXai
        = demoListeningSession.sentToXai ++ [XaiMsg.responseCancel] :=
  interrupt_cancel_behavior demoListeningSession 0 rfl rfl

/-- Claim C8, counterexample to the claim as stated: a client audio chunk
    handled in state ready leaves the session in ready; it does not move it
    to listening. -/
theorem client_audio_ready_state_cex :
    demoReadySession.state = SessionState.ready
    ∧ (handle_client_audio_chunk demoReadySession 1 ("QUJD")).state
        ≠ SessionState.listening := by
  exact ⟨rfl, by decide⟩

/-- Claim C8, amended: a client audio chunk received in ready or listening
    leaves the state unchanged, a chunk received in any other state moves
    the session to listening, and whenever the upstream connection is
    attached the chunk is forwarded immediately as a single
    input_audio_buffer.append message. -/
theorem client_audio_state_and_forwarding (s : VoiceSession) (now : Nat) (d : String) :
    ((s.state = SessionState.ready ∨ s.state = SessionState.listening) →
       (handle_client_audio_chunk s now d).state = s.state)
    ∧ ((s.state ≠ SessionState.ready ∧ s.state ≠ SessionState.listening) →
       (handle_client_audio_chunk s now d).state = SessionState.listening)
    ∧ (s.xaiConnected = true →
       (handle_client_audio_chunk s now d).sentToXai
         = s.sentToXai ++ [XaiMsg.inputAudioAppend d]) := by
  unfold handle_client_audio_chunk
  refine ⟨?_, ?_, ?_⟩
  · intro hrl
    have hcond : ¬ (s.state ≠ SessionState.ready ∧ s.state ≠ SessionState.listening) := by
      rcases hrl with h | h
      · intro hc
        exact hc.1 h
      · intro hc
        exact hc.2 h
    simp [hcond, send_to_xai]
    split <;> rfl
  · intro hcond
    simp only [send_to_xai, set_state, send_to_client]
    rw [if_pos hcond]
    split <;> rfl
  · intro hconn
    by_cases hc : s.state ≠ SessionState.ready ∧ s.state ≠ SessionState.listening
    · simp [hc, send_to_xai, set_state, send_to_client, hconn]
    · simp [hc, send_to_xai, set_state, send_to_client, hconn]

theorem client_audio_state_and_forwarding_witness :
    (handle_client_audio_chunk demoReadySession 1 ("QUJD")).state = demoReadySession.state
    ∧ (handle_client_audio_chunk demoReadySession 1 ("QUJD")).sentToXai
        = demoReadySession.sentToXai ++ [XaiMsg.inputAudioAppend ("QUJD")] :=
  ⟨(client_audio_state_and_forwarding demoReadySession 1 ("QUJD")).1 (Or.inl rfl),
   (client_audio_state_and_forwarding demoReadySession 1 ("QUJD")).2.2 rfl⟩

/-- Claim C7, counterexample to the claim as stated: a tool call whose
    argument string fails to parse emits executing and failed notifications
    but does not increment the tool call counter. -/
theorem tool_call_failed_not_counted_cex :
    (handle_tool_call demoToolEnvParseFail demoReadySession ("c1") ("get_contacts")
        ("bad")).toolCallsCount
      = demoReadySession.toolCallsCount
    ∧ ¬ ((handle_tool_call demoToolEnvParseFail demoReadySession ("c1") ("get_contacts")
        ("bad")).toolCallsCount
          = demoReadySession.toolCallsCount + 1) := by
  exact ⟨rfl, by decide⟩

/-- Claim C7, amended: every tool call handled by handle_tool_call emits an
    executing notification followed by exactly one completion notification;
    the completion is failed exactly when argument parsing fails, in which
    case the counter is unchanged, and completed otherwise (including for
    unknown tools and downstream HTTP failures, which report completed with
    an error summary), in which case the counter grows by exactly one. -/
theorem tool_call_notifications_and_counter (env : ToolEnv) (s : VoiceSession)
    (callId toolName arguments : String) :
    toolCallStatuses (handle_tool_call env s callId toolName arguments).sentToClient
      = toolCallStatuses s.sentToClient ++
        [(toolName, ("executing")),
         (toolName, if parseFails env arguments then ("failed") else ("completed"))]
    ∧ (handle_tool_call env s callId toolName arguments).toolCallsCount
      = s.toolCallsCount + (if parseFails env arguments then 0 else 1) := by
  refine ⟨?_, ?_⟩ <;>
    (by_cases hp : parseFails env arguments = true <;>
      by_cases hx : s.xaiConnected = true <;>
        by_cases hb : (toolName == "web_search" || toolName == "x_search") = true <;>
          simp [handle_tool_call, handle_tool_error, hp, hx, hb, toolCallStatuses,
            send_to_client, List.filterMap_append])

theorem not_builtin_eq_false (toolName : String) (h : toolName ∉ builtinTools) :
    (toolName == "web_search" || toolName == "x_search") = false := by
  simp only [builtinTools, List.mem_cons, List.not_mem_nil, or_false, not_or] at h
  simp [h.1, h.2]

theorem known_not_builtin (toolName : String) (h : toolName ∈ knownNucleusTools) :
    (toolName == "web_search" || toolName == "x_search") = false := by
  simp only [knownNucleusTools, List.mem_cons, List.not_mem_nil, or_false] at h
  rcases h with h | h | h | h | h | h | h | h <;> simp [h]

theorem execute_tool_unknown (httpOutcome : String → Except String String)
    (toolName : String) (h : toolName ∉ knownNucleusTools) :
    execute_tool httpOutcome toolName
      = ToolResult.errPayload (("Unknown tool: ") ++ toolName) := by
  simp only [knownNucleusTools, List.mem_cons, List.not_mem_nil, or_false, not_or] at h
  obtain ⟨k1, k2, k3, k4, k5, k6, k7, k8⟩ := h
  simp [execute_tool, k1, k2, k3, k4, k5, k6, k7, k8]

theorem execute_tool_known (httpOutcome : String → Except String String)
    (toolName : String) (h : toolName ∈ knownNucleusTools) :
    execute_tool httpOutcome toolName = execHttp httpOutcome toolName := by
  simp only [knownNucleusTools, List.mem_cons, List.not_mem_nil, or_false] at h
  rcases h with h | h | h | h | h | h | h | h <;> simp [execute_tool, h]

/-- Claim C6: every tool failure mode of the dispatch path produces a
    structured error result delivered upstream through the normal
    tool-result channel, conversation.item.create with function_call_output
    followed by response.create: an unknown tool name, a malformed argument
    string, and a downstream HTTP failure; and no tool call changes the
    session state or terminates the session (the dispatch path is total in
    this model, whose sends never raise). -/
theorem tool_failures_structured_errors (s : VoiceSession)
    (callId toolName arguments msg : String) (hconn : s.xaiConnected = true) :
    (toolName ∉ builtinTools → toolName ∉ knownNucleusTools →
       ∀ env : ToolEnv, parseFails env arguments = false →
         (handle_tool_call env s callId toolName arguments).sentToXai
           = s.sentToXai ++
             [XaiMsg.functionCallOutput callId
                (ToolResult.errPayload (("Unknown tool: ") ++ toolName)),
              XaiMsg.responseCreate])
    ∧ (∀ env : ToolEnv, parseFails env arguments = true →
         (handle_tool_call env s callId toolName arguments).sentToXai
           = s.sentToXai ++
             [XaiMsg.functionCallOutput callId
                (ToolResult.errPayload ("Invalid arguments")),
              XaiMsg.responseCreate])
    ∧ (toolName ∈ knownNucleusTools →
       ∀ env : ToolEnv, parseFails env arguments = false →
         env.httpOutcome toolName = Except.error msg →
         (handle_tool_call env s callId toolName arguments).sentToXai
           = s.sentToXai ++
             [XaiMsg.functionCallOutput callId (ToolResult.errPayload msg),
              XaiMsg.responseCreate])
    ∧ (∀ env : ToolEnv,
         (handle_tool_call env s callId toolName arguments).state = s.state
         ∧ (handle_tool_call env s callId toolName arguments).isActive = s.isActive) := by
  refine ⟨?_, ?_, ?_, ?_⟩
  · intro hnb hnk env hp
    have hb := not_builtin_eq_false toolName hnb
    have hu := execute_tool_unknown env.httpOutcome toolName hnk
    simp [handle_tool_call, hp, hb, hu, send_to_client, hconn]
  · intro env hp
    simp [handle_tool_call, handle_tool_error, hp, send_to_client, hconn]
  · intro hk env hp herr
    have hb := known_not_builtin toolName hk
    have he := execute_tool_known env.httpOutcome toolName hk
    simp [handle_tool_call, hp, hb, he, execHttp, herr, send_to_client, hconn]
  · intro env
    by_cases hp : parseFails env arguments = true <;>
      by_cases hb : (toolName == "web_search" || toolName == "x_search") = true <;>
        exact ⟨by simp [handle_tool_call, handle_tool_error, hp, hb, send_to_client, hconn],
          by simp [handle_tool_call, handle_tool_error, hp, hb, send_to_client, hconn]⟩

theorem tool_failures_structured_errors_witness :
    (handle_tool_call demoToolEnvHttpFail demoReadySession ("c1") ("get_contacts")
        ("")).sentToXai
      = demoReadySession.sentToXai ++
        [XaiMsg.functionCallOutput ("c1") (ToolResult.errPayload ("boom")),
         XaiMsg.responseCreate] :=
  (tool_failures_structured_errors demoReadySession ("c1") ("get_contacts") ("") ("boom")
      rfl).2.2.1 (by decide) demoToolEnvHttpFail rfl rfl

theorem closeSession_sessions_of_found {m : ManagerState} {sid : Nat} {s : VoiceSession}
    (h : lookupA sid m.sessions = some s) :
    (closeSession m sid).sessions = assocErase sid m.sessions := by
  unfold closeSession
  rw [h]

theorem closeSession_published_of_found {m : ManagerState} {sid : Nat} {s : VoiceSession}
    (h : lookupA sid m.sessions = some s) :
    (closeSession m sid).published = m.published ++ [mkEnded s.entityId sid] := by
  unfold closeSession
  rw [h]

/-- Claim C2: close_session is idempotent.  With an unknown id it is the
    identity (the source logs a warning and returns, raising nothing, and
    every cleanup step inside the found branch is wrapped so that it cannot
    raise either); closing twice equals closing once; and one close adds at
    most one voice.session.ended event for that session to the published
    trace, so the termination event is emitted at most once per session. -/
theorem close_session_idempotent (m : ManagerState) (sid : Nat) :
    (lookupA sid m.sessions = none → closeSession m sid = m)
    ∧ closeSession (closeSession m sid) sid = closeSession m sid
    ∧ countEnded sid (closeSession m sid).published
        ≤ countEnded sid m.published + 1 := by
  refine ⟨closeSession_not_found m sid, ?_, ?_⟩
  · cases h : lookupA sid m.sessions with
    | none => rw [closeSession_not_found m sid h, closeSession_not_found m sid h]
    | some s =>
      apply closeSession_not_found
      rw [closeSession_sessions_of_found h, lookupA_assocErase, if_pos rfl]
  · cases h : lookupA sid m.sessions with
    | none =>
      rw [closeSession_not_found m sid h]
      exact Nat.le_succ _
    | some s =>
      rw [closeSession_published_of_found h]
      unfold countEnded
      rw [List.filter_append]
      simp [mkEnded]

theorem close_session_idempotent_witness :
    closeSession demoManager 99 = demoManager
    ∧ closeSession (closeSession demoManager 1) 1 = closeSession demoManager 1 :=
  ⟨(close_session_idempotent demoManager 99).1 rfl,
   (close_session_idempotent demoManager 1).2.1⟩

/-- Claim C5: with the registry at its configured maximum and no existing
    session for the entity, create_session fails with the capacity error
    before the upstream connect step runs, and the manager state, in
    particular the registry size and the number of attempted upstream
    connections, is unchanged. -/
theorem create_session_capacity_error (m : ManagerState) (e newSid now : Nat) (ok : Bool)
    (hE : lookupA e m.entitySessions = none)
    (hcap : m.sessions.length = m.maxConcurrent) :
    (createSession m e newSid now ok).1 = Except.error CreateError.maxSessions
    ∧ (createSession m e newSid now ok).2 = m
    ∧ (createSession m e newSid now ok).2.sessions.length = m.sessions.length
    ∧ (createSession m e newSid now ok).2.xaiConnectAttempts = m.xaiConnectAttempts := by
  rw [createSession_of_lookup_none newSid now ok hE,
    createSessionAfterClose_cap e newSid now ok (le_of_eq hcap.symm)]
  exact ⟨rfl, rfl, rfl, rfl⟩

theorem create_session_capacity_error_witness :
    (createSession demoCapManager 20 2 7 true).1 = Except.error CreateError.maxSessions
    ∧ (createSession demoCapManager 20 2 7 true).2 = demoCapManager :=
  ⟨(create_session_capacity_error demoCapManager 20 2 7 true rfl rfl).1,
   (create_session_capacity_error demoCapManager 20 2 7 true rfl rfl).2.1⟩

/-- Claim C10: close_session deletes the entity mapping only when it still
    points at the session being closed, so closing a stale session never
    removes the mapping of a newer session of the same entity; the entity
    dict is left entirely unchanged. -/
theorem close_session_stale_mapping_preserved (m : ManagerState) (sid : Nat)
    (s : VoiceSession) (h : lookupA sid m.sessions = some s)
    (hnew : lookupA s.entityId m.entitySessions ≠ some sid) :
    (closeSession m sid).entitySessions = m.entitySessions
    ∧ ∀ e : Nat, lookupA e (closeSession m sid).entitySessions
        = lookupA e m.entitySessions := by
  have hfield : (closeSession m sid).entitySessions = m.entitySessions := by
    unfold closeSession
    rw [h]
    dsimp only
    cases hE : lookupA s.entityId m.entitySessions with
    | none => rfl
    | some sid2 =>
      have hne : ¬ sid2 = sid := by
        intro hc
        rw [hc] at hE
        exact hnew hE
      simp [hne]
  exact ⟨hfield, fun e => by rw [hfield]⟩

theorem close_session_stale_mapping_preserved_witness :
    (closeSession demoStaleManager 1).entitySessions = demoStaleManager.entitySessions :=
  (close_session_stale_mapping_preserved demoStaleManager 1 demoReadySession rfl
    (by decide)).1

theorem Inv_demoManager : Inv demoManager := by
  constructor
  · intro sid s h
    simp only [demoManager, lookupA] at h
    by_cases h1 : (1 : Nat) = sid
    · rw [if_pos h1] at h
      obtain rfl : demoReadySession = s := Option.some.inj h
      rw [← h1]
      rfl
    · rw [if_neg h1] at h
      cases h
  · intro e sid h
    simp only [demoManager, lookupA] at h
    by_cases h1 : (10 : Nat) = e
    · rw [if_pos h1] at h
      obtain hs : (1 : Nat) = sid := Option.some.inj h
      refine ⟨demoReadySession, ?_, ?_⟩
      · rw [← hs]
        rfl
      · rw [← h1]
        rfl
    · rw [if_neg h1] at h
      cases h

/-- Claim C1: the manager keeps at most one registered session per entity.
    The registry coupling invariant is preserved by create_session on every
    path and by close_session, and it implies at most one session per entity
    at any instant; moreover, when create_session runs for an entity with an
    existing session and succeeds, the prior session is no longer registered,
    the entity maps to the new session, and the published trace shows the
    ended event of the prior session strictly before the started event of
    the new one, so the prior session is closed before the new one is
    registered and usable. -/
theorem create_session_one_session_per_entity (m : ManagerState) (e newSid now : Nat)
    (ok : Bool) (hI : Inv m) (hfresh : lookupA newSid m.sessions = none) :
    Inv (createSession m e newSid now ok).2
    ∧ AtMostOne (createSession m e newSid now ok).2
    ∧ (∀ sid : Nat, AtMostOne (closeSession m sid))
    ∧ (∀ oldSid : Nat, lookupA e m.entitySessions = some oldSid →
        (createSession m e newSid now ok).1 = Except.ok newSid →
          lookupA oldSid (createSession m e newSid now ok).2.sessions = none
          ∧ lookupA e (createSession m e newSid now ok).2.entitySessions = some newSid
          ∧ (createSession m e newSid now ok).2.published
              = m.published ++ [mkEnded e oldSid, mkStarted e newSid]) := by
  refine ⟨Inv_createSession m e newSid now ok hI hfresh,
    atMostOne_of_inv _ (Inv_createSession m e newSid now ok hI hfresh),
    fun sid => atMostOne_of_inv _ (Inv_closeSession m sid hI), ?_⟩
  intro oldSid hE hok
  obtain ⟨sOld, hOld, hOldE⟩ := hI.w2 e oldSid hE
  have hw : lookupA sOld.entityId m.entitySessions = some oldSid := by
    rw [hOldE]
    exact hE
  have hCS := closeSession_found m oldSid sOld hOld hw
  have hne : oldSid ≠ newSid := by
    intro hc
    rw [hc, hfresh] at hOld
    cases hOld
  rw [createSession_of_lookup_some newSid now ok hE] at hok ⊢
  by_cases hcap :
      (closeSession m oldSid).sessions.length ≥ (closeSession m oldSid).maxConcurrent
  · rw [createSessionAfterClose_cap e newSid now ok hcap] at hok
    simp at hok
  · cases ok with
    | false =>
      rw [createSessionAfterClose_connectFailed e newSid now hcap] at hok
      simp at hok
    | true =>
      rw [createSessionAfterClose_ok e newSid now hcap]
      dsimp only
      refine ⟨?_, ?_, ?_⟩
      · rw [lookupA_assocSet, if_neg hne, closeSession_sessions_of_found hOld,
          lookupA_assocErase, if_pos rfl]
      · rw [lookupA_assocSet, if_pos rfl]
      · rw [closeSession_published_of_found hOld, hOldE]
        simp [List.append_assoc]

theorem create_session_one_session_per_entity_witness :
    lookupA 1 (createSession demoManager 10 2 7 true).2.sessions = none
    ∧ lookupA 10 (createSession demoManager 10 2 7 true).2.entitySessions = some 2
    ∧ (createSession demoManager 10 2 7 true).2.published
        = demoManager.published ++ [mkEnded 10 1, mkStarted 10 2] :=
  (create_session_one_session_per_entity demoManager 10 2 7 true Inv_demoManager
    rfl).2.2.2 1 rfl rfl

end VG
